import Mathlib

/-!
Shallow embedding of the MagicRoute backend analytics core (src/index.js).

Conventions used throughout:
* JS numbers that hold currency amounts are modelled as rationals; `parseFloat(x || 0)`
  on a possibly-missing amount becomes `Option ℚ` with `getD 0`.
* JS strings are Lean `String`s; `undefined` string fields are modelled as `Option String`
  when the code distinguishes presence (spread semantics, `||` fallbacks), and as `""`
  when absence and the empty string are treated alike by the code (truthiness).
* The server is assumed to run in the UTC timezone, so `new Date(iso).getFullYear()` etc.
  agree with the UTC calendar date encoded in the ISO string.
* Wall-clock reads (`new Date()`) are made explicit: every operation that consults the
  clock takes a `now : String` argument.
-/

/-- JS truthy-or for an optional string: `x || d` where both `undefined` and `""` are falsy. -/
def jsOr (x : Option String) (d : String) : String :=
  match x with
  | some s => if s = "" then d else s
  | none => d

/-- Fuel-driven decimal digit expansion; `fuel` strictly dominates `n` at every call. -/
def jsNatDigitsAux : Nat → Nat → List Char
  | 0, _ => []
  | fuel + 1, n =>
    if n < 10 then [Nat.digitChar n]
    else jsNatDigitsAux fuel (n / 10) ++ [Nat.digitChar (n % 10)]

/-- Decimal digit characters of a natural number, mirroring JS integer-to-string conversion. -/
def jsNatDigits (n : Nat) : List Char := jsNatDigitsAux (n + 1) n

/-- Character list of the JS decimal rendering of an integer. -/
def jsIntChars (i : Int) : List Char :=
  if i < 0 then '-' :: jsNatDigits i.natAbs else jsNatDigits i.natAbs

/-- JS decimal rendering of an integer (template-literal interpolation of a number). -/
def jsIntToString (i : Int) : String := ⟨jsIntChars i⟩

/-- JS decimal rendering of a natural number. -/
def jsNatToString (n : Nat) : String := ⟨jsNatDigits n⟩

/-- Value of a digit string read most-significant first. -/
def valDigits (ds : List Char) : Nat :=
  ds.foldl (fun a c => a * 10 + (c.toNat - 48)) 0

/-- Leading-digit parse used by `parseInt`: longest digit run, `none` when there is none (NaN). -/
def jsParseIntCore (cs : List Char) : Option Nat :=
  let ds := cs.takeWhile Char.isDigit
  if ds.isEmpty then none else some (valDigits ds)

/-- JS `parseInt` on a character list: optional sign, then the longest leading digit run;
`none` models NaN.  (Leading whitespace never occurs in the inputs this program builds.) -/
def jsParseIntChars (cs : List Char) : Option Int :=
  match cs with
  | [] => none
  | c :: rest =>
    if c = '-' then (jsParseIntCore rest).map (fun n : Nat => -(n : Int))
    else if c = '+' then (jsParseIntCore rest).map (fun n : Nat => (n : Int))
    else (jsParseIntCore (c :: rest)).map (fun n : Nat => (n : Int))

/-- JS `parseInt` on a string. -/
def jsParseInt (s : String) : Option Int := jsParseIntChars s.data

/-- Remove the first occurrence of a character: `s.replace('W', '')` with a one-char pattern. -/
def removeFirstChar (c : Char) : List Char → List Char
  | [] => []
  | x :: xs => if x = c then xs else x :: removeFirstChar c xs

/-- The part of an ISO timestamp before the first `T`: `createdAt.split('T')[0]`. -/
def datePart (s : String) : String := ⟨s.data.takeWhile (fun c => c ≠ 'T')⟩

/-- Split a character list on a separator character (JS `String.prototype.split`). -/
def splitOnChar (c : Char) : List Char → List (List Char)
  | [] => [[]]
  | x :: xs =>
    let r := splitOnChar c xs
    if x = c then [] :: r
    else
      match r with
      | [] => [[x]]
      | y :: ys => (x :: y) :: ys

/-- Day count of a proleptic-Gregorian civil date from the Unix epoch 1970-01-01
(the day arithmetic behind `Date.UTC(y, m, d)`); floor division throughout. -/
def daysFromCivil (y : Int) (m d : Nat) : Int :=
  let y' : Int := if m ≤ 2 then y - 1 else y
  let era : Int := Int.fdiv y' 400
  let yoe : Int := y' - era * 400
  let mp : Int := Int.emod ((m : Int) + 9) 12
  let doy : Int := Int.fdiv (153 * mp + 2) 5 + (d : Int) - 1
  let doe : Int := yoe * 365 + Int.fdiv yoe 4 - Int.fdiv yoe 100 + doy
  era * 146097 + doe - 719468

/-- Inverse of `daysFromCivil`: the civil date of an epoch day count
(the arithmetic behind `getUTCFullYear`/`getUTCMonth`/`getUTCDate`). -/
def daysToCivil (z : Int) : Int × Nat × Nat :=
  let z' := z + 719468
  let era := Int.fdiv z' 146097
  let doe := z' - era * 146097
  let yoe := Int.fdiv (doe - Int.fdiv doe 1460 + Int.fdiv doe 36524 - Int.fdiv doe 146096) 365
  let y := yoe + era * 400
  let doy := doe - (365 * yoe + Int.fdiv yoe 4 - Int.fdiv yoe 100)
  let mp := Int.fdiv (5 * doy + 2) 153
  let d := doy - Int.fdiv (153 * mp + 2) 5 + 1
  let m := if mp < 10 then mp + 3 else mp - 9
  (if m ≤ 2 then y + 1 else y, m.toNat, d.toNat)

/-- JS `getUTCDay`: 0 = Sunday; epoch day 0 (1970-01-01) was a Thursday. -/
def weekdayOfDays (z : Int) : Nat := (Int.emod (z + 4) 7).toNat

/-- `getWeekNumber` from src/index.js lines 340-346, on an already-extracted civil date:
shift to the nearest Thursday, then week number = ceil(day-of-year-of-that-Thursday / 7);
result is the template string `year-Wweek`. -/
def getWeekNumber (y : Int) (m d : Nat) : String :=
  let z := daysFromCivil y m d
  let w := weekdayOfDays z
  let dayNum : Int := if w = 0 then 7 else (w : Int)
  let zThu := z + 4 - dayNum
  let yThu := (daysToCivil zThu).1
  let yearStart := daysFromCivil yThu 1 1
  let weekNo := ((zThu - yearStart).toNat + 1 + 6) / 7
  jsIntToString yThu ++ "-W" ++ jsNatToString weekNo

/-- ISO `YYYY-MM-DD` parse of the date part of a timestamp string, modelling what
`new Date(createdAt)` exposes through its UTC getters; `none` models an Invalid Date. -/
def parseDateParts (s : String) : Option (Int × Nat × Nat) :=
  match splitOnChar '-' (datePart s).data with
  | [ys, ms, ds] =>
    if ys.length = 4 ∧ ms.length = 2 ∧ ds.length = 2 ∧
        ys.all Char.isDigit ∧ ms.all Char.isDigit ∧ ds.all Char.isDigit ∧
        1 ≤ valDigits ms ∧ valDigits ms ≤ 12 ∧ 1 ≤ valDigits ds ∧ valDigits ds ≤ 31
    then some ((valDigits ys : Int), valDigits ms, valDigits ds)
    else none
  | _ => none

/-- `getWeekNumber(new Date(order.createdAt))`: week key of a timestamp string; an
unparseable timestamp yields the literal NaN interpolation the JS code would produce. -/
def getWeekOfCreatedAt (createdAt : String) : String :=
  match parseDateParts createdAt with
  | some (y, m, d) => getWeekNumber y m d
  | none => "NaN-WNaN"

/-- An order record.  Fields never consulted by the modelled operations
(customer phone/address/postcode, coordinates) are omitted. -/
structure Order where
  id : Int
  basketNo : Int
  deliveryNo : String
  shopName : String
  customerName : String
  status : String
  paymentMethod : String
  totalAmount : Option ℚ
  createdAt : String
  deliveredAt : Option String
  deliveryNotes : String
deriving DecidableEq, Repr

/-- `parseFloat(order.totalAmount || 0)`: a missing amount contributes 0. -/
def orderAmount (o : Order) : ℚ := o.totalAmount.getD 0

/-- The four-key payment breakdown object `{ Balance: 0, Cash: 0, Card: 0, Bank: 0 }`. -/
structure PaymentBreakdown where
  balance : ℚ
  cash : ℚ
  card : ℚ
  bank : ℚ
deriving DecidableEq, Repr

/-- One loop step of the payment-breakdown accumulation (src/index.js lines 191-199 and
238-245): `Bank Transfer` goes to the `Bank` key, any own property of the literal
(`Balance`, `Cash`, `Card`, `Bank`) is bumped, anything else is dropped. -/
def pbAdd (pb : PaymentBreakdown) (o : Order) : PaymentBreakdown :=
  let method := if o.paymentMethod = "" then "Not Set" else o.paymentMethod
  let amount := orderAmount o
  if method = "Bank Transfer" then { pb with bank := pb.bank + amount }
  else if method = "Balance" then { pb with balance := pb.balance + amount }
  else if method = "Cash" then { pb with cash := pb.cash + amount }
  else if method = "Card" then { pb with card := pb.card + amount }
  else if method = "Bank" then { pb with bank := pb.bank + amount }
  else pb

/-- `shopRevenue[shop] = (shopRevenue[shop] || 0) + amount` on an insertion-ordered map. -/
def bumpShop : List (String × ℚ) → String → ℚ → List (String × ℚ)
  | [], s, q => [(s, q)]
  | (s', v) :: rest, s, q =>
    if s' = s then (s', v + q) :: rest else (s', v) :: bumpShop rest s q

/-- The per-bucket shop-revenue map, keys in first-encounter order (JS object key order). -/
def shopRevenueOf (os : List Order) : List (String × ℚ) :=
  os.foldl (fun acc o => bumpShop acc o.shopName (orderAmount o)) []

/-- JS property read `shopRevenue[s]`: `none` models `undefined`. -/
def rlookup (rev : List (String × ℚ)) (s : String) : Option ℚ :=
  (rev.find? (fun p => p.1 == s)).map Prod.snd

/-- JS `>` on two possibly-undefined numbers: any comparison with `undefined` is false. -/
def cmpGtOpt (a b : Option ℚ) : Bool :=
  match a, b with
  | some x, some y => decide (y < x)
  | _, _ => false

/-- `Object.keys(shopRevenue).reduce((a, b) => shopRevenue[a] > shopRevenue[b] ? a : b, 'N/A')`
(src/index.js lines 208-209 and 255-256). -/
def topShopOf (rev : List (String × ℚ)) : String :=
  (rev.map Prod.fst).foldl
    (fun a b => if cmpGtOpt (rlookup rev a) (rlookup rev b) then a else b) ("N/A")

/-- A daily or weekly sales record; `key` is the `date` field of a daily record and the
`week` field of a weekly record (the two map callbacks are otherwise identical). -/
structure SalesRecord where
  id : Option Int
  key : String
  totalRevenue : ℚ
  totalOrders : Nat
  deliveredOrders : Nat
  pendingOrders : Nat
  inProcessOrders : Nat
  averageOrderValue : ℚ
  topShop : String
  topShopRevenue : ℚ
  paymentBreakdown : PaymentBreakdown
deriving DecidableEq, Repr

/-- `orders.filter(order => order.status === st).length`. -/
def countStatus (os : List Order) (st : String) : Nat :=
  (os.filter (fun o => o.status == st)).length

/-- `orders.reduce((sum, order) => sum + parseFloat(order.totalAmount || 0), 0)`. -/
def totalRevenueOf (os : List Order) : ℚ :=
  os.foldl (fun s o => s + orderAmount o) 0

/-- Body shared by the daily and weekly map callbacks (src/index.js lines 181-225 and
228-272); only the id computation differs, so it is passed in. -/
def mkBucketRecord (idv : Option Int) (key : String) (os : List Order) : SalesRecord :=
  let totalRevenue := totalRevenueOf os
  let totalOrders := os.length
  let rev := shopRevenueOf os
  let top := topShopOf rev
  { id := idv
    key := key
    totalRevenue := totalRevenue
    totalOrders := totalOrders
    deliveredOrders := countStatus os ("Delivered")
    pendingOrders := countStatus os ("Pending")
    inProcessOrders := countStatus os ("In Process")
    averageOrderValue := if 0 < totalOrders then totalRevenue / (totalOrders : ℚ) else 0
    topShop := top
    topShopRevenue := (rlookup rev top).getD 0
    paymentBreakdown := os.foldl pbAdd ⟨0, 0, 0, 0⟩ }

/-- Daily bucket id: `parseInt` of the date with every dash removed (global dash regex). -/
def dailyIdOf (date : String) : Option Int :=
  jsParseIntChars (date.data.filter (fun c => c ≠ '-'))

/-- `parseInt(week.replace('W', ''))`: weekly bucket id (a string pattern replaces only
the first occurrence). -/
def weeklyIdOf (week : String) : Option Int :=
  jsParseIntChars (removeFirstChar 'W' week.data)

/-- One daily sales record. -/
def mkDailyRecord (date : String) (os : List Order) : SalesRecord :=
  mkBucketRecord (dailyIdOf date) date os

/-- One weekly sales record. -/
def mkWeeklyRecord (week : String) (os : List Order) : SalesRecord :=
  mkBucketRecord (weeklyIdOf week) week os

/-- Append an order to its group, creating the group at the end on first encounter
(JS object key insertion order). -/
def insertGroup : List (String × List Order) → String → Order → List (String × List Order)
  | [], k, o => [(k, [o])]
  | (k', g) :: rest, k, o =>
    if k' = k then (k', g ++ [o]) :: rest else (k', g) :: insertGroup rest k o

/-- Group a list of orders by a string key, keys in first-encounter order. -/
def groupByKey (f : Order → String) (os : List Order) : List (String × List Order) :=
  os.foldl (fun acc o => insertGroup acc (f o) o) []

/-- The orders that reach bucketing: `if (order.createdAt)` keeps truthy timestamps only. -/
def bucketedOrders (orders : List Order) : List Order :=
  orders.filter (fun o => o.createdAt != "")

/-- Daily grouping key: `order.createdAt.split('T')[0]`. -/
def dateKey (o : Order) : String := datePart o.createdAt

/-- Weekly grouping key: `getWeekNumber(new Date(order.createdAt))`. -/
def weekKey (o : Order) : String := getWeekOfCreatedAt o.createdAt

/-- A prediction record. -/
structure Prediction where
  id : Nat
  type : String
  timeframe : String
  predictedValue : ℚ
  confidence : Nat
  factors : List String
deriving DecidableEq, Repr

/-- A report record. -/
structure Report where
  id : Nat
  type : String
  date : String
  totalRevenue : ℚ
  totalOrders : Nat
  averageOrderValue : ℚ
  topShop : String
  paymentBreakdown : PaymentBreakdown
deriving DecidableEq, Repr

/-- A notification record. -/
structure Notification where
  id : Nat
  type : String
  message : String
  timestamp : String
  read : Bool
deriving DecidableEq, Repr

/-- The single prediction (src/index.js lines 275-282): last day bucket's revenue × 1.1,
falling back to 850.00 when there is no day bucket; constant confidence 85. -/
def mkPredictions (dailySales : List SalesRecord) : List Prediction :=
  [{ id := 1
     type := "revenue"
     timeframe := "tomorrow"
     predictedValue :=
       match dailySales.getLast? with
       | some b => b.totalRevenue * (11 / 10)
       | none => 850
     confidence := 85
     factors := ["historical_trend", "day_of_week", "seasonal_pattern"] }]

/-- The single report (src/index.js lines 285-295), summarising the latest weekly bucket
with `|| 0` / `|| 'N/A'` fallbacks (`|| 0` is the identity on rational fields; the
string fallback keeps its JS empty-string falsiness). -/
def mkReports (now : String) (weeklySales : List SalesRecord) : List Report :=
  match weeklySales.getLast? with
  | some w =>
    [{ id := 1
       type := "comprehensive"
       date := now
       totalRevenue := w.totalRevenue
       totalOrders := w.totalOrders
       averageOrderValue := w.averageOrderValue
       topShop := if w.topShop = "" then "N/A" else w.topShop
       paymentBreakdown := w.paymentBreakdown }]
  | none =>
    [{ id := 1
       type := "comprehensive"
       date := now
       totalRevenue := 0
       totalOrders := 0
       averageOrderValue := 0
       topShop := "N/A"
       paymentBreakdown := ⟨0, 0, 0, 0⟩ }]

/-- The synthetic notifications (src/index.js lines 298-308): one entry when the last
ledger order is Delivered, timestamp from `deliveredAt || new Date().toISOString()`. -/
def mkNotifications (now : String) (orders : List Order) : List Notification :=
  match orders.getLast? with
  | some o =>
    if o.status = "Delivered" then
      [{ id := 1
         type := "order_update"
         message := "Order #" ++ jsIntToString o.id ++ " delivered successfully"
         timestamp := jsOr o.deliveredAt now
         read := false }]
    else []
  | none => []

/-- The full output of one recalculation. -/
structure Analytics where
  dailySales : List SalesRecord
  weeklySales : List SalesRecord
  predictions : List Prediction
  reports : List Report
  notifications : List Notification
deriving DecidableEq, Repr

/-- `recalculateAnalytics(orders)` (src/index.js lines 156-317), with the wall-clock reads
made an explicit `now` argument. -/
def recalculateAnalytics (orders : List Order) (now : String) : Analytics :=
  let dailySales :=
    (groupByKey dateKey (bucketedOrders orders)).map (fun p => mkDailyRecord p.1 p.2)
  let weeklySales :=
    (groupByKey weekKey (bucketedOrders orders)).map (fun p => mkWeeklyRecord p.1 p.2)
  { dailySales := dailySales
    weeklySales := weeklySales
    predictions := mkPredictions dailySales
    reports := mkReports now weeklySales
    notifications := mkNotifications now orders }

/-- A request body for the order endpoints: a JS object carrying any subset of the
order fields (`none` = key absent from the body). -/
structure OrderPatch where
  id : Option Int := none
  basketNo : Option Int := none
  deliveryNo : Option String := none
  shopName : Option String := none
  customerName : Option String := none
  status : Option String := none
  paymentMethod : Option String := none
  totalAmount : Option ℚ := none
  createdAt : Option String := none
  deliveredAt : Option String := none
  deliveryNotes : Option String := none
deriving DecidableEq, Repr

/-- `Math.max(...orders.map(order => order.id), 0)`. -/
def maxOrderId (orders : List Order) : Int :=
  orders.foldl (fun m o => max m o.id) 0

/-- `String(n).padStart(3, '0')`. -/
def padStart3 (s : String) : String :=
  if s.length < 3 then (⟨List.replicate (3 - s.length) '0'⟩ : String) ++ s else s

/-- The order built by `POST /api/orders` (src/index.js lines 513-528).  Spread order
matters: the computed `id` comes BEFORE `...req.body`, so a body-supplied `id` wins,
while `basketNo`, `deliveryNo`, `status`, `deliveryNotes`, `createdAt`, `deliveredAt`
and `paymentMethod` come after the spread and are always enforced. -/
def createOrder (orders : List Order) (body : OrderPatch) (now : String) : Order :=
  let newId := maxOrderId orders + 1
  { id := body.id.getD newId
    basketNo := newId
    deliveryNo := "D" ++ padStart3 (jsIntToString newId)
    shopName := body.shopName.getD ""
    customerName := body.customerName.getD ""
    status := "Pending"
    paymentMethod := jsOr body.paymentMethod ""
    totalAmount := body.totalAmount
    createdAt := now
    deliveredAt := none
    deliveryNotes := "" }

/-- The merged order built by `PUT /api/orders/:id` (src/index.js lines 578-589):
`{ ...order, ...body, ...(body.status === 'Delivered' && stamping), paymentMethod }`.
The stamping spread fires on the REQUESTED status alone (the previous status is never
consulted) and overwrites `deliveredAt` with `body.deliveredAt || now` and
`deliveryNotes` with `body.deliveryNotes || ''`. -/
def updateOrder (o : Order) (body : OrderPatch) (now : String) : Order :=
  let stamped : Bool := body.status == some "Delivered"
  { id := body.id.getD o.id
    basketNo := body.basketNo.getD o.basketNo
    deliveryNo := body.deliveryNo.getD o.deliveryNo
    shopName := body.shopName.getD o.shopName
    customerName := body.customerName.getD o.customerName
    status := body.status.getD o.status
    paymentMethod := jsOr body.paymentMethod ""
    totalAmount := body.totalAmount.or o.totalAmount
    createdAt := body.createdAt.getD o.createdAt
    deliveredAt :=
      if stamped then some (jsOr body.deliveredAt now) else body.deliveredAt.or o.deliveredAt
    deliveryNotes :=
      if stamped then jsOr body.deliveryNotes "" else body.deliveryNotes.getD o.deliveryNotes }

/-- Blank the one report field stamped with the wall clock. -/
def scrubReport (r : Report) : Report := { r with date := "" }

/-- Blank the one notification field that can be stamped with the wall clock. -/
def scrubNotification (n : Notification) : Notification := { n with timestamp := "" }

/-- An analytics result with every wall-clock-stamped field blanked. -/
def scrubClock (a : Analytics) : Analytics :=
  { a with
    reports := a.reports.map scrubReport
    notifications := a.notifications.map scrubNotification }

/-! Concrete fixtures used by witnesses and counterexamples. -/

/-- A pending order of 40 at shop Alpha, created 2024-01-02. -/
def ordAlpha : Order :=
  { id := 1, basketNo := 1, deliveryNo := "D001", shopName := "Alpha",
    customerName := "c", status := "Pending", paymentMethod := "", totalAmount := some 40,
    createdAt := "2024-01-02T10:00:00.000Z", deliveredAt := none, deliveryNotes := "" }

/-- A same-day order of the same amount at shop Beta. -/
def ordBeta : Order := { ordAlpha with id := 2, shopName := "Beta" }

/-- A delivered order with both delivery fields already present. -/
def ordDone : Order :=
  { ordAlpha with
    status := "Delivered",
    deliveredAt := some "2024-01-02T12:00:00.000Z", deliveryNotes := "left at door" }

/-- A same-day order of 50 paid in cash. -/
def ordCash : Order := { ordAlpha with paymentMethod := "Cash", totalAmount := some 50 }

/-- A same-day order of 30 paid by bank transfer. -/
def ordBankT : Order :=
  { ordAlpha with
    id := 2, paymentMethod := "Bank Transfer", totalAmount := some 30 }

/-- A same-day order of 10 whose payment method is the literal string `Bank`. -/
def ordBankLit : Order := { ordAlpha with paymentMethod := "Bank", totalAmount := some 10 }

/-- C9: the week key computed for 2024-01-01 (a Monday) is `2024-W1`, both on the raw
civil date and through the timestamp-string wrapper. -/
theorem c9_week_key_2024_01_01 :
    getWeekNumber 2024 1 1 = "2024-W1" ∧
    getWeekOfCreatedAt "2024-01-01T00:00:00.000Z" = "2024-W1" := by
  constructor <;> decide

/-- C5: recalculating over the empty ledger yields no day or week buckets, exactly one
prediction with value 850.00 and confidence 85, exactly one report with the empty-bucket
defaults, and no notifications. -/
theorem c5_empty_ledger (now : String) :
    (recalculateAnalytics [] now).dailySales = [] ∧
    (recalculateAnalytics [] now).weeklySales = [] ∧
    (recalculateAnalytics [] now).predictions =
      [{ id := 1, type := "revenue", timeframe := "tomorrow", predictedValue := 850,
         confidence := 85, factors := ["historical_trend", "day_of_week", "seasonal_pattern"] }] ∧
    (recalculateAnalytics [] now).reports =
      [{ id := 1, type := "comprehensive", date := now, totalRevenue := 0, totalOrders := 0,
         averageOrderValue := 0, topShop := "N/A", paymentBreakdown := ⟨0, 0, 0, 0⟩ }] ∧
    (recalculateAnalytics [] now).notifications = [] :=
  ⟨rfl, rfl, rfl, rfl, rfl⟩

/-- C10 (amended): a created order always gets status Pending, null deliveredAt, empty
deliveryNotes, creation time `now`, and basketNo = 1 + max existing id; its id is the
body-supplied id when the request carries one (the spread overwrites the computed id),
and 1 + max existing id otherwise. -/
theorem c10_create_order_fields (orders : List Order) (body : OrderPatch) (now : String) :
    (createOrder orders body now).status = "Pending" ∧
    (createOrder orders body now).deliveredAt = none ∧
    (createOrder orders body now).deliveryNotes = "" ∧
    (createOrder orders body now).createdAt = now ∧
    (createOrder orders body now).basketNo = maxOrderId orders + 1 ∧
    (createOrder orders body now).id = body.id.getD (maxOrderId orders + 1) :=
  ⟨rfl, rfl, rfl, rfl, rfl, rfl⟩

/-- C10 counterexample: on the empty ledger a request body carrying `id: 999` produces an
order with id 999, not 1, while basketNo is still 1 — the body id is not overwritten. -/
theorem c10_cex_body_id_wins :
    (createOrder [] { id := some 999 } "2024-01-01T00:00:00.000Z").id = 999 ∧
    (createOrder [] { id := some 999 } "2024-01-01T00:00:00.000Z").basketNo = 1 ∧
    (999 : Int) ≠ maxOrderId [] + 1 := by
  refine ⟨rfl, rfl, ?_⟩
  decide

/-- C4 (amended): the update endpoint stamps `deliveredAt`/`deliveryNotes` exactly when
the REQUEST's status field is `Delivered`, regardless of the order's previous status;
it then takes the body value when present and otherwise stamps the current time
(respectively the empty string), overwriting whatever the order held.  When the
requested status is anything else, the two fields follow plain spread semantics. -/
theorem c4_update_stamping (o : Order) (body : OrderPatch) (now : String) :
    (body.status = some "Delivered" →
      (updateOrder o body now).deliveredAt = some (jsOr body.deliveredAt now) ∧
      (updateOrder o body now).deliveryNotes = jsOr body.deliveryNotes "") ∧
    (body.status ≠ some "Delivered" →
      (updateOrder o body now).deliveredAt = body.deliveredAt.or o.deliveredAt ∧
      (updateOrder o body now).deliveryNotes = body.deliveryNotes.getD o.deliveryNotes) := by
  constructor <;> intro h
  · simp [updateOrder, h]
  · simp [updateOrder, beq_eq_false_iff_ne.mpr h]

/-- C4 witness: updating any order with a body whose status is `Delivered` and which
carries neither delivery field stamps `deliveredAt := now` and empty notes. -/
theorem c4_update_stamping_witness :
    (updateOrder ordDone { status := some "Delivered" } "2025-05-05T00:00:00.000Z").deliveredAt
      = some (jsOr none "2025-05-05T00:00:00.000Z") ∧
    (updateOrder ordDone { status := some "Delivered" } "2025-05-05T00:00:00.000Z").deliveryNotes
      = jsOr none "" :=
  (c4_update_stamping ordDone { status := some "Delivered" } "2025-05-05T00:00:00.000Z").1 rfl

/-- C4 counterexample: an order already Delivered, with both delivery fields present, is
re-stamped by a `status: Delivered` update — the source state is not Pending/In Process
and the fields are not absent, yet both are overwritten. -/
theorem c4_cex_restamp_delivered :
    ordDone.status = "Delivered" ∧
    ordDone.deliveredAt = some "2024-01-02T12:00:00.000Z" ∧
    ordDone.deliveryNotes = "left at door" ∧
    (updateOrder ordDone { status := some "Delivered" } "2025-05-05T00:00:00.000Z").deliveredAt
      = some "2025-05-05T00:00:00.000Z" ∧
    (updateOrder ordDone { status := some "Delivered" } "2025-05-05T00:00:00.000Z").deliveryNotes
      = "" := by
  refine ⟨rfl, rfl, rfl, ?_, ?_⟩ <;> decide

/-- The prediction list is computed from the daily list alone. -/
theorem predictions_eq (orders : List Order) (now : String) :
    (recalculateAnalytics orders now).predictions
      = mkPredictions ((recalculateAnalytics orders now).dailySales) := rfl

/-- C7: every recalculation yields exactly one prediction, of constant confidence 85,
whose value is the last day bucket's revenue times 1.1 when a day bucket exists and the
fixed fallback 850.00 when there is none. -/
theorem c7_single_prediction (orders : List Order) (now : String) :
    ((recalculateAnalytics orders now).predictions.map Prediction.confidence = [85]) ∧
    ((recalculateAnalytics orders now).dailySales = [] →
      (recalculateAnalytics orders now).predictions.map Prediction.predictedValue = [850]) ∧
    (∀ b, (recalculateAnalytics orders now).dailySales.getLast? = some b →
      (recalculateAnalytics orders now).predictions.map Prediction.predictedValue
        = [b.totalRevenue * (11 / 10)]) := by
  rw [predictions_eq]
  refine ⟨rfl, fun h => ?_, fun b hb => ?_⟩
  · rw [h]; rfl
  · simp [mkPredictions, hb]

/-- C7 witness: on the empty ledger there is no day bucket and the single prediction
carries the 850.00 fallback. -/
theorem c7_single_prediction_witness :
    (recalculateAnalytics [] "1970-01-01T00:00:00.000Z").predictions.map
      Prediction.predictedValue = [850] :=
  (c7_single_prediction [] "1970-01-01T00:00:00.000Z").2.1 rfl

/-- C6 (amended): the breakdown has exactly the four keys of `PaymentBreakdown`;
`Bank Transfer` adds to the Bank key, but so does the literal method string `Bank`
(it is an own property of the initial object); any method outside
{Balance, Cash, Card, Bank, Bank Transfer} — including unset — adds to no key.
The 50-cash/30-bank-transfer same-day scenario still comes out as stated. -/
theorem c6_payment_breakdown (pb : PaymentBreakdown) (o : Order)
    (hout : o.paymentMethod ∉ ["Balance", "Cash", "Card", "Bank", "Bank Transfer"]) :
    (pbAdd pb o = pb) ∧
    (∀ o' : Order, o'.paymentMethod = "Bank Transfer" →
      pbAdd pb o' = { pb with bank := pb.bank + orderAmount o' }) ∧
    (∀ o' : Order, o'.paymentMethod = "Bank" →
      pbAdd pb o' = { pb with bank := pb.bank + orderAmount o' }) ∧
    ((recalculateAnalytics [ordCash, ordBankT] "2024-01-03T00:00:00.000Z").dailySales.map
      SalesRecord.paymentBreakdown = [⟨0, 50, 0, 30⟩]) := by
  simp only [List.mem_cons, List.not_mem_nil, or_false, not_or] at hout
  obtain ⟨h1, h2, h3, h4, h5⟩ := hout
  refine ⟨?_, fun o' h => ?_, fun o' h => ?_, ?_⟩
  · by_cases h0 : o.paymentMethod = "" <;>
      simp [pbAdd, h0, h1, h2, h3, h4, h5]
  · simp [pbAdd, h]
  · simp [pbAdd, h]
  · norm_num +decide [recalculateAnalytics, bucketedOrders, groupByKey, insertGroup,
      dateKey, datePart, mkDailyRecord, mkBucketRecord, pbAdd, orderAmount,
      ordCash, ordBankT, ordAlpha, List.filter, List.foldl]

/-- C6 witness: an order paid by `Voucher` changes no key, while `Bank Transfer` and the
stray own-property method `Bank` both land in the Bank key. -/
theorem c6_payment_breakdown_witness :
    (pbAdd ⟨1, 2, 3, 4⟩ { ordAlpha with paymentMethod := "Voucher" } = ⟨1, 2, 3, 4⟩) ∧
    (∀ o' : Order, o'.paymentMethod = "Bank Transfer" →
      pbAdd ⟨1, 2, 3, 4⟩ o' = { bank := 4 + orderAmount o', balance := 1, cash := 2, card := 3 }) ∧
    (∀ o' : Order, o'.paymentMethod = "Bank" →
      pbAdd ⟨1, 2, 3, 4⟩ o' = { bank := 4 + orderAmount o', balance := 1, cash := 2, card := 3 }) ∧
    ((recalculateAnalytics [ordCash, ordBankT] "2024-01-03T00:00:00.000Z").dailySales.map
      SalesRecord.paymentBreakdown = [⟨0, 50, 0, 30⟩]) :=
  c6_payment_breakdown ⟨1, 2, 3, 4⟩ { ordAlpha with paymentMethod := "Voucher" } (by decide)

/-- C6 counterexample: a single order whose payment method is the literal string `Bank`
— not in {Balance, Cash, Card, Bank Transfer} — nonetheless contributes its amount to
the Bank key, so the bucket breakdown is not all-zero. -/
theorem c6_cex_bank_method_counts :
    ordBankLit.paymentMethod = "Bank" ∧
    ((recalculateAnalytics [ordBankLit] "2024-01-03T00:00:00.000Z").dailySales.map
      SalesRecord.paymentBreakdown = [⟨0, 0, 0, 10⟩]) ∧
    (⟨0, 0, 0, 10⟩ : PaymentBreakdown) ≠ ⟨0, 0, 0, 0⟩ := by
  refine ⟨rfl, ?_, ?_⟩
  · norm_num +decide [recalculateAnalytics, bucketedOrders, groupByKey, insertGroup,
      dateKey, datePart, mkDailyRecord, mkBucketRecord, pbAdd, orderAmount,
      ordBankLit, ordAlpha, List.filter, List.foldl]
  · simp

/-- Scrubbed reports do not depend on the clock argument. -/
theorem scrub_mkReports (t1 t2 : String) (w : List SalesRecord) :
    (mkReports t1 w).map scrubReport = (mkReports t2 w).map scrubReport := by
  cases hw : w.getLast? <;> simp [mkReports, hw, scrubReport]

/-- Scrubbed notifications do not depend on the clock argument. -/
theorem scrub_mkNotifications (t1 t2 : String) (orders : List Order) :
    (mkNotifications t1 orders).map scrubNotification
      = (mkNotifications t2 orders).map scrubNotification := by
  cases ho : orders.getLast? with
  | none => simp [mkNotifications, ho]
  | some o =>
    by_cases hs : o.status = "Delivered" <;>
      simp [mkNotifications, ho, hs, scrubNotification]

/-- C1: recalculating twice over the same ledger snapshot gives identical dailySales,
weeklySales, predictions, reports and notifications once the two wall-clock-stamped
fields (the report's date and the notification-timestamp fallback) are blanked;
every other field is bit-identical. -/
theorem c1_recalc_clock_independent (orders : List Order) (t1 t2 : String) :
    scrubClock (recalculateAnalytics orders t1) = scrubClock (recalculateAnalytics orders t2) := by
  simp only [recalculateAnalytics, scrubClock]
  rw [scrub_mkReports t1 t2, scrub_mkNotifications t1 t2]

/-- Two orders with the same key form a single two-member group. -/
theorem groupByKey_pair (f : Order → String) (o1 o2 : Order) (h : f o2 = f o1) :
    groupByKey f [o1, o2] = [(f o1, [o1, o2])] := by
  simp [groupByKey, insertGroup, h]

/-- Two orders at distinct shops produce a two-entry revenue map in encounter order. -/
theorem shopRevenueOf_pair (o1 o2 : Order) (hs : o1.shopName ≠ o2.shopName) :
    shopRevenueOf [o1, o2]
      = [(o1.shopName, orderAmount o1), (o2.shopName, orderAmount o2)] := by
  simp [shopRevenueOf, bumpShop, hs]

/-- On a two-entry revenue map with equal values the reduce keeps the LATER key: the
strict `>` comparison fails on equals, so the accumulator is replaced. -/
theorem topShopOf_pair (s1 s2 : String) (q : ℚ)
    (hs : s1 ≠ s2) (h1 : s1 ≠ "N/A") (h2 : s2 ≠ "N/A") :
    topShopOf [(s1, q), (s2, q)] = s2 := by
  have e1 : (s1 == "N/A") = false := beq_eq_false_iff_ne.mpr h1
  have e2 : (s2 == "N/A") = false := beq_eq_false_iff_ne.mpr h2
  have e3 : (s1 == s2) = false := beq_eq_false_iff_ne.mpr hs
  have e4 : (s1 == s1) = true := beq_self_eq_true s1
  have e5 : (s2 == s2) = true := beq_self_eq_true s2
  simp [topShopOf, rlookup, List.find?, cmpGtOpt, e1, e2, e3, e4, e5, lt_self_iff_false]

/-- C2 (amended): in a bucket holding two shops of exactly equal summed revenue, topShop
resolves to the shop that appears LAST in the fold over the orders' original sequence:
the strict `>` comparison keeps the accumulator only on strictly greater revenue, so an
equal newcomer replaces it (last-encountered wins among equals). -/
theorem c2_tie_goes_to_later_shop (o1 o2 : Order) (now : String)
    (hc : o1.createdAt ≠ "") (hceq : o2.createdAt = o1.createdAt)
    (hs : o1.shopName ≠ o2.shopName)
    (hn1 : o1.shopName ≠ "N/A") (hn2 : o2.shopName ≠ "N/A")
    (ha : orderAmount o1 = orderAmount o2) :
    ((recalculateAnalytics [o1, o2] now).dailySales.map SalesRecord.topShop
      = [o2.shopName]) ∧
    ((recalculateAnalytics [o1, o2] now).weeklySales.map SalesRecord.topShop
      = [o2.shopName]) := by
  have f1 : (o1.createdAt != "") = true := by simp [bne_iff_ne, hc]
  have f2 : (o2.createdAt != "") = true := by rw [hceq]; exact f1
  have hfilter : bucketedOrders [o1, o2] = [o1, o2] := by
    simp [bucketedOrders, List.filter, f1, f2]
  have hdk : dateKey o2 = dateKey o1 := by unfold dateKey; rw [hceq]
  have hwk : weekKey o2 = weekKey o1 := by unfold weekKey; rw [hceq]
  have htop : topShopOf (shopRevenueOf [o1, o2]) = o2.shopName := by
    rw [shopRevenueOf_pair o1 o2 hs, ha]
    exact topShopOf_pair o1.shopName o2.shopName (orderAmount o2) hs hn1 hn2
  constructor
  · have hds : (recalculateAnalytics [o1, o2] now).dailySales
        = [mkDailyRecord (dateKey o1) [o1, o2]] := by
      show (groupByKey dateKey (bucketedOrders [o1, o2])).map
        (fun p => mkDailyRecord p.1 p.2) = _
      rw [hfilter, groupByKey_pair dateKey o1 o2 hdk]
      rfl
    rw [hds, List.map_singleton]
    show [topShopOf (shopRevenueOf [o1, o2])] = [o2.shopName]
    rw [htop]
  · have hws : (recalculateAnalytics [o1, o2] now).weeklySales
        = [mkWeeklyRecord (weekKey o1) [o1, o2]] := by
      show (groupByKey weekKey (bucketedOrders [o1, o2])).map
        (fun p => mkWeeklyRecord p.1 p.2) = _
      rw [hfilter, groupByKey_pair weekKey o1 o2 hwk]
      rfl
    rw [hws, List.map_singleton]
    show [topShopOf (shopRevenueOf [o1, o2])] = [o2.shopName]
    rw [htop]

/-- C2 witness: Alpha then Beta, both 40 on the same day — daily and weekly topShop are
Beta, the later shop. -/
theorem c2_tie_goes_to_later_shop_witness :
    ((recalculateAnalytics [ordAlpha, ordBeta] "2024-01-03T00:00:00.000Z").dailySales.map
      SalesRecord.topShop = [ordBeta.shopName]) ∧
    ((recalculateAnalytics [ordAlpha, ordBeta] "2024-01-03T00:00:00.000Z").weeklySales.map
      SalesRecord.topShop = [ordBeta.shopName]) :=
  c2_tie_goes_to_later_shop ordAlpha ordBeta "2024-01-03T00:00:00.000Z"
    (by decide) (by decide) (by decide) (by decide) (by decide) (by decide)

/-- C2 counterexample: with Alpha first and Beta second at equal revenue, topShop is
Beta, not the first-encountered Alpha the claim requires. -/
theorem c2_cex_first_shop_loses :
    ordAlpha.shopName = "Alpha" ∧ ordBeta.shopName = "Beta" ∧
    ((recalculateAnalytics [ordAlpha, ordBeta] "2024-01-03T00:00:00.000Z").dailySales.map
      SalesRecord.topShop = ["Beta"]) ∧
    ("Beta" : String) ≠ "Alpha" := by
  refine ⟨rfl, rfl, ?_, by decide⟩
  decide

/-- An order counted by none of the three per-bucket status counters. -/
def unclassified (o : Order) : Bool :=
  !(o.status == "Delivered") && !(o.status == "Pending") && !(o.status == "In Process")

/-- Every member of a list falls in exactly one of the four status classes. -/
theorem length_status_partition (os : List Order) :
    os.length = countStatus os ("Delivered") + countStatus os ("Pending")
      + countStatus os ("In Process") + (os.filter unclassified).length := by
  induction os with
  | nil => rfl
  | cons o os ih =>
    by_cases hD : o.status = "Delivered" <;> by_cases hP : o.status = "Pending" <;>
      by_cases hI : o.status = "In Process" <;>
      simp_all [countStatus, List.filter_cons, unclassified] <;> omega

/-- The average-order-value field times the order count gives back the bucket revenue. -/
theorem mkBucketRecord_avg (idv : Option Int) (key : String) (os : List Order) :
    (mkBucketRecord idv key os).averageOrderValue
      * ((mkBucketRecord idv key os).totalOrders : ℚ)
      = (mkBucketRecord idv key os).totalRevenue := by
  show (if 0 < os.length then totalRevenueOf os / (os.length : ℚ) else 0) * (os.length : ℚ)
    = totalRevenueOf os
  by_cases h : 0 < os.length
  · rw [if_pos h]
    exact div_mul_cancel₀ _ (Nat.cast_ne_zero.mpr (Nat.pos_iff_ne_zero.mp h))
  · rw [if_neg h]
    have : os = [] := List.length_eq_zero.mp (Nat.eq_zero_of_not_pos h)
    subst this
    simp [totalRevenueOf]

/-- Status counters of a bucket record, read back from its member list. -/
theorem mkBucketRecord_counts (idv : Option Int) (key : String) (os : List Order) :
    (mkBucketRecord idv key os).totalOrders = os.length ∧
    (mkBucketRecord idv key os).deliveredOrders = countStatus os ("Delivered") ∧
    (mkBucketRecord idv key os).pendingOrders = countStatus os ("Pending") ∧
    (mkBucketRecord idv key os).inProcessOrders = countStatus os ("In Process") :=
  ⟨rfl, rfl, rfl, rfl⟩

/-- Every bucket of a recalculation is a `mkBucketRecord` over some member list. -/
theorem mem_recalc_mkBucketRecord (orders : List Order) (now : String) (b : SalesRecord)
    (hb : b ∈ (recalculateAnalytics orders now).dailySales
      ++ (recalculateAnalytics orders now).weeklySales) :
    ∃ (idv : Option Int) (key : String) (os : List Order), b = mkBucketRecord idv key os := by
  rw [List.mem_append] at hb
  rcases hb with h | h
  · have hd : (recalculateAnalytics orders now).dailySales
        = (groupByKey dateKey (bucketedOrders orders)).map (fun p => mkDailyRecord p.1 p.2) :=
      rfl
    rw [hd] at h
    rcases List.mem_map.mp h with ⟨p, _, hp⟩
    exact ⟨dailyIdOf p.1, p.1, p.2, hp.symm⟩
  · have hw : (recalculateAnalytics orders now).weeklySales
        = (groupByKey weekKey (bucketedOrders orders)).map (fun p => mkWeeklyRecord p.1 p.2) :=
      rfl
    rw [hw] at h
    rcases List.mem_map.mp h with ⟨p, _, hp⟩
    exact ⟨weeklyIdOf p.1, p.1, p.2, hp.symm⟩

/-- C8: in every daily or weekly bucket, averageOrderValue × totalOrders returns exactly
the bucket's totalRevenue (division only happens for nonempty buckets, never a
division-by-zero), and totalOrders is the sum of the three status counters plus the
members matching none of the three statuses. -/
theorem c8_bucket_invariants (orders : List Order) (now : String) (b : SalesRecord)
    (hb : b ∈ (recalculateAnalytics orders now).dailySales
      ++ (recalculateAnalytics orders now).weeklySales) :
    b.averageOrderValue * (b.totalOrders : ℚ) = b.totalRevenue ∧
    ∃ os : List Order,
      b.totalOrders = os.length ∧
      b.deliveredOrders = countStatus os ("Delivered") ∧
      b.pendingOrders = countStatus os ("Pending") ∧
      b.inProcessOrders = countStatus os ("In Process") ∧
      b.totalOrders = b.deliveredOrders + b.pendingOrders + b.inProcessOrders
        + (os.filter unclassified).length := by
  obtain ⟨idv, key, os, rfl⟩ := mem_recalc_mkBucketRecord orders now b hb
  obtain ⟨h1, h2, h3, h4⟩ := mkBucketRecord_counts idv key os
  refine ⟨mkBucketRecord_avg idv key os, os, h1, h2, h3, h4, ?_⟩
  rw [h1, h2, h3, h4]
  exact length_status_partition os

/-- C8 witness: the single daily bucket of a one-order ledger satisfies both invariants. -/
theorem c8_bucket_invariants_witness :
    (mkDailyRecord (dateKey ordAlpha) [ordAlpha]).averageOrderValue
      * ((mkDailyRecord (dateKey ordAlpha) [ordAlpha]).totalOrders : ℚ)
      = (mkDailyRecord (dateKey ordAlpha) [ordAlpha]).totalRevenue ∧
    ∃ os : List Order,
      (mkDailyRecord (dateKey ordAlpha) [ordAlpha]).totalOrders = os.length ∧
      (mkDailyRecord (dateKey ordAlpha) [ordAlpha]).deliveredOrders
        = countStatus os ("Delivered") ∧
      (mkDailyRecord (dateKey ordAlpha) [ordAlpha]).pendingOrders
        = countStatus os ("Pending") ∧
      (mkDailyRecord (dateKey ordAlpha) [ordAlpha]).inProcessOrders
        = countStatus os ("In Process") ∧
      (mkDailyRecord (dateKey ordAlpha) [ordAlpha]).totalOrders
        = (mkDailyRecord (dateKey ordAlpha) [ordAlpha]).deliveredOrders
          + (mkDailyRecord (dateKey ordAlpha) [ordAlpha]).pendingOrders
          + (mkDailyRecord (dateKey ordAlpha) [ordAlpha]).inProcessOrders
          + (os.filter unclassified).length :=
  c8_bucket_invariants [ordAlpha] "2024-01-03T00:00:00.000Z"
    (mkDailyRecord (dateKey ordAlpha) [ordAlpha])
    (List.mem_append_left _ (List.Mem.head _))

/-- Decimal digit characters of values below ten are digit characters. -/
theorem digitChar_isDigit : ∀ n, n < 10 → (Nat.digitChar n).isDigit = true := by decide

/-- Reading a decimal digit character back gives the digit. -/
theorem digitChar_val : ∀ n, n < 10 → (Nat.digitChar n).toNat - 48 = n := by decide

/-- All characters produced by the digit expansion are digits. -/
theorem jsNatDigitsAux_all_digit :
    ∀ (fuel n : Nat), n < fuel → (jsNatDigitsAux fuel n).all Char.isDigit = true := by
  intro fuel
  induction fuel with
  | zero => intro n h; omega
  | succ fuel ih =>
    intro n h
    rw [jsNatDigitsAux]
    by_cases h10 : n < 10
    · simp [h10, digitChar_isDigit n h10]
    · have hpos : 0 < n := by omega
      have hlt : n / 10 < fuel := by
        have := Nat.div_lt_self hpos (by omega : 1 < 10)
        omega
      simp [h10, List.all_append, ih (n / 10) hlt,
        digitChar_isDigit (n % 10) (Nat.mod_lt n (by omega))]

/-- The digit expansion is never empty when the fuel suffices. -/
theorem jsNatDigitsAux_ne_nil :
    ∀ (fuel n : Nat), n < fuel → jsNatDigitsAux fuel n ≠ [] := by
  intro fuel
  induction fuel with
  | zero => intro n h; omega
  | succ fuel _ =>
    intro n _
    rw [jsNatDigitsAux]
    by_cases h10 : n < 10 <;> simp [h10]

/-- Folding the digit reader over one more digit multiplies by ten and adds it. -/
theorem valDigits_append (ds : List Char) (c : Char) :
    valDigits (ds ++ [c]) = valDigits ds * 10 + (c.toNat - 48) := by
  simp [valDigits, List.foldl_append]

/-- Reading the digit expansion back gives the number. -/
theorem valDigits_jsNatDigitsAux :
    ∀ (fuel n : Nat), n < fuel → valDigits (jsNatDigitsAux fuel n) = n := by
  intro fuel
  induction fuel with
  | zero => intro n h; omega
  | succ fuel ih =>
    intro n h
    rw [jsNatDigitsAux]
    by_cases h10 : n < 10
    · simp [h10, valDigits, digitChar_val n h10]
    · have hpos : 0 < n := by omega
      have hlt : n / 10 < fuel := by
        have := Nat.div_lt_self hpos (by omega : 1 < 10)
        omega
      rw [if_neg h10, valDigits_append, ih (n / 10) hlt,
        digitChar_val (n % 10) (Nat.mod_lt n (by omega))]
      omega

/-- A leading all-digit run followed by a non-digit region is exactly what
`takeWhile isDigit` keeps. -/
theorem takeWhile_digits_append (ds rest : List Char) (h : ds.all Char.isDigit = true)
    (hr : rest.takeWhile Char.isDigit = []) :
    (ds ++ rest).takeWhile Char.isDigit = ds := by
  induction ds with
  | nil => rw [List.nil_append]; exact hr
  | cons c cs ih =>
    rw [List.all_cons, Bool.and_eq_true] at h
    simp [List.takeWhile_cons, h.1, ih h.2]

/-- `W` is not a digit, so it never occurs in a digit expansion. -/
theorem w_not_mem_digits (ds : List Char) (h : ds.all Char.isDigit = true) : 'W' ∉ ds := by
  intro hmem
  have := List.all_eq_true.mp h _ hmem
  exact absurd this (by decide)

/-- `W` never occurs in the decimal rendering of an integer. -/
theorem w_not_mem_jsIntChars (y : Int) : 'W' ∉ jsIntChars y := by
  have hd := jsNatDigitsAux_all_digit (y.natAbs + 1) y.natAbs (Nat.lt_succ_self _)
  unfold jsIntChars
  by_cases hy : y < 0
  · rw [if_pos hy]
    intro hmem
    rcases List.mem_cons.mp hmem with h | h
    · exact absurd h (by decide)
    · exact w_not_mem_digits _ hd h
  · rw [if_neg hy]
    exact w_not_mem_digits _ hd

/-- Removing the first `W` from digits-dash-`W`-tail leaves digits-dash-tail. -/
theorem removeFirstChar_w (xs rest : List Char) (h : 'W' ∉ xs) :
    removeFirstChar 'W' (xs ++ 'W' :: rest) = xs ++ rest := by
  induction xs with
  | nil => simp [removeFirstChar]
  | cons x xs ih =>
    rw [List.mem_cons, not_or] at h
    simp [removeFirstChar, Ne.symm h.1, ih h.2]

/-- `parseInt` of an integer rendering followed by a dash-led tail recovers the
integer: the digit run stops at the dash, the tail is discarded. -/
theorem jsParseIntChars_int_dash (y : Int) (rest : List Char) :
    jsParseIntChars (jsIntChars y ++ '-' :: rest) = some y := by
  have hall := jsNatDigitsAux_all_digit (y.natAbs + 1) y.natAbs (Nat.lt_succ_self _)
  have hne := jsNatDigitsAux_ne_nil (y.natAbs + 1) y.natAbs (Nat.lt_succ_self _)
  have hval := valDigits_jsNatDigitsAux (y.natAbs + 1) y.natAbs (Nat.lt_succ_self _)
  have htail : ('-' :: rest).takeWhile Char.isDigit = [] := by
    exact List.takeWhile_cons_of_neg (by decide)
  have hcore : jsParseIntCore (jsNatDigits y.natAbs ++ '-' :: rest) = some y.natAbs := by
    unfold jsParseIntCore jsNatDigits
    rw [takeWhile_digits_append _ _ hall htail]
    rw [if_neg (by simp [List.isEmpty_iff]; exact hne)]
    exact congrArg some hval
  by_cases hy : y < 0
  · have hchars : jsIntChars y = '-' :: jsNatDigits y.natAbs := by
      unfold jsIntChars
      rw [if_pos hy]
    rw [hchars, List.cons_append, jsParseIntChars, if_pos rfl, hcore]
    simp only [Option.map_some']
    congr 1
    omega
  · have hchars : jsIntChars y = jsNatDigits y.natAbs := by
      unfold jsIntChars
      rw [if_neg hy]
    rw [hchars]
    obtain ⟨c, cs, hcons⟩ : ∃ c cs, jsNatDigits y.natAbs = c :: cs := by
      cases hl : jsNatDigits y.natAbs with
      | nil => exact absurd hl hne
      | cons c cs => exact ⟨c, cs, rfl⟩
    have hcdigit : c.isDigit = true := by
      have := hall
      rw [show jsNatDigitsAux (y.natAbs + 1) y.natAbs = jsNatDigits y.natAbs from rfl,
        hcons, List.all_cons, Bool.and_eq_true] at this
      exact this.1
    have hcnotdash : c ≠ '-' := by
      intro hc
      rw [hc] at hcdigit
      exact absurd hcdigit (by decide)
    have hcnotplus : c ≠ '+' := by
      intro hc
      rw [hc] at hcdigit
      exact absurd hcdigit (by decide)
    rw [hcons, List.cons_append, jsParseIntChars, if_neg hcnotdash, if_neg hcnotplus,
      ← List.cons_append, ← hcons, hcore]
    simp only [Option.map_some']
    congr 1
    omega

/-- Every week key the program builds has the shape `year-Wweek`. -/
theorem getWeekNumber_shape (y : Int) (m d : Nat) :
    ∃ (yy : Int) (w : Nat),
      getWeekNumber y m d = jsIntToString yy ++ "-W" ++ jsNatToString w :=
  ⟨_, _, rfl⟩

/-- The weekly bucket id of a `year-Wweek` key is the YEAR: stripping the `W` leaves
`year-week`, and `parseInt` stops at the dash, discarding the week number. -/
theorem weeklyIdOf_shape (yy : Int) (w : Nat) :
    weeklyIdOf (jsIntToString yy ++ "-W" ++ jsNatToString w) = some yy := by
  have hdata : (jsIntToString yy ++ "-W" ++ jsNatToString w).data
      = (jsIntChars yy ++ ['-']) ++ 'W' :: jsNatDigits w := by
    rw [String.data_append, String.data_append]
    show jsIntChars yy ++ ['-', 'W'] ++ jsNatDigits w = _
    simp
  have hnw : 'W' ∉ jsIntChars yy ++ ['-'] := by
    intro hmem
    rcases List.mem_append.mp hmem with h | h
    · exact w_not_mem_jsIntChars yy h
    · simp at h
  unfold weeklyIdOf
  rw [hdata, removeFirstChar_w _ _ hnw, List.append_assoc, List.singleton_append]
  exact jsParseIntChars_int_dash yy (jsNatDigits w)

/-- A key of an extended group map is either an old key or the inserted one. -/
theorem insertGroup_key (acc : List (String × List Order)) (k0 : String) (o : Order)
    (k : String) (g : List Order) (h : (k, g) ∈ insertGroup acc k0 o) :
    (∃ g', (k, g') ∈ acc) ∨ k = k0 := by
  induction acc with
  | nil =>
    simp [insertGroup] at h
    exact Or.inr h.1
  | cons p rest ih =>
    obtain ⟨k', g'⟩ := p
    by_cases hk : k' = k0
    · rw [insertGroup, if_pos hk] at h
      rcases List.mem_cons.mp h with h' | h'
      · have : k = k' := congrArg Prod.fst h'
        exact Or.inl ⟨g', this ▸ List.mem_cons_self _ _⟩
      · exact Or.inl ⟨g, List.mem_cons_of_mem _ h'⟩
    · rw [insertGroup, if_neg hk] at h
      rcases List.mem_cons.mp h with h' | h'
      · have hfst : k = k' := congrArg Prod.fst h'
        have hsnd : g = g' := congrArg Prod.snd h'
        exact Or.inl ⟨g', hfst ▸ hsnd ▸ List.mem_cons_self _ _⟩
      · rcases ih h' with ⟨g'', hg''⟩ | h''
        · exact Or.inl ⟨g'', List.mem_cons_of_mem _ hg''⟩
        · exact Or.inr h''

/-- Every key of the grouping fold is an old key or the key of a processed order. -/
theorem groupByKey_fold_key (f : Order → String) (l : List Order) :
    ∀ (acc : List (String × List Order)) (k : String) (g : List Order),
      (k, g) ∈ l.foldl (fun a o => insertGroup a (f o) o) acc →
      (∃ g', (k, g') ∈ acc) ∨ ∃ o ∈ l, k = f o := by
  induction l with
  | nil =>
    intro acc k g h
    exact Or.inl ⟨g, h⟩
  | cons o l ih =>
    intro acc k g h
    rcases ih (insertGroup acc (f o) o) k g h with ⟨g', hg'⟩ | h'
    · rcases insertGroup_key acc (f o) o k g' hg' with h'' | h''
      · exact Or.inl h''
      · exact Or.inr ⟨o, List.mem_cons_self _ _, h''⟩
    · rcases h' with ⟨o', ho', hk⟩
      exact Or.inr ⟨o', List.mem_cons_of_mem _ ho', hk⟩

/-- Every key of a group map is the key function applied to some grouped order. -/
theorem mem_groupByKey_key (f : Order → String) (l : List Order) (k : String)
    (g : List Order) (h : (k, g) ∈ groupByKey f l) : ∃ o ∈ l, k = f o := by
  rcases groupByKey_fold_key f l [] k g h with ⟨g', hg'⟩ | h'
  · simp at hg'
  · exact h'

/-- C3 (amended): every daily bucket id is the bucket's date with the dashes removed,
parsed as an integer — but every weekly bucket id is the YEAR of its `year-Wweek` key
parsed as an integer: stripping the single `W` leaves `year-week`, and `parseInt` stops
at the dash, so the week number (not the year) is what gets discarded. -/
theorem c3_bucket_ids (orders : List Order) (now : String)
    (hvalid : ∀ o ∈ orders, (parseDateParts o.createdAt).isSome = true) :
    (∀ b ∈ (recalculateAnalytics orders now).dailySales, b.id = dailyIdOf b.key) ∧
    (∀ b ∈ (recalculateAnalytics orders now).weeklySales,
      ∃ (y : Int) (w : Nat),
        b.key = jsIntToString y ++ "-W" ++ jsNatToString w ∧ b.id = some y) := by
  constructor
  · intro b hb
    have hd : (recalculateAnalytics orders now).dailySales
        = (groupByKey dateKey (bucketedOrders orders)).map (fun p => mkDailyRecord p.1 p.2) :=
      rfl
    rw [hd] at hb
    rcases List.mem_map.mp hb with ⟨p, _, hp⟩
    rw [← hp]
    rfl
  · intro b hb
    have hw : (recalculateAnalytics orders now).weeklySales
        = (groupByKey weekKey (bucketedOrders orders)).map (fun p => mkWeeklyRecord p.1 p.2) :=
      rfl
    rw [hw] at hb
    rcases List.mem_map.mp hb with ⟨p, hpmem, hp⟩
    obtain ⟨o, homem, hk⟩ := mem_groupByKey_key weekKey (bucketedOrders orders) p.1 p.2 hpmem
    have ho : o ∈ orders := List.mem_of_mem_filter homem
    obtain ⟨⟨y0, m0, d0⟩, hparse⟩ := Option.isSome_iff_exists.mp (hvalid o ho)
    have hkey : p.1 = getWeekNumber y0 m0 d0 := by
      rw [hk]
      unfold weekKey getWeekOfCreatedAt
      rw [hparse]
    obtain ⟨yy, w, hshape⟩ := getWeekNumber_shape y0 m0 d0
    refine ⟨yy, w, ?_, ?_⟩
    · rw [← hp]
      show p.1 = _
      rw [hkey, hshape]
    · rw [← hp]
      show weeklyIdOf p.1 = some yy
      rw [hkey, hshape]
      exact weeklyIdOf_shape yy w

/-- C3 witness: a one-order ledger created 2024-01-02 has daily id 20240102 from the
dash-stripped date and weekly id 2024 from the year of its `2024-W1` key. -/
theorem c3_bucket_ids_witness :
    (∀ b ∈ (recalculateAnalytics [ordAlpha] "2024-01-03T00:00:00.000Z").dailySales,
      b.id = dailyIdOf b.key) ∧
    (∀ b ∈ (recalculateAnalytics [ordAlpha] "2024-01-03T00:00:00.000Z").weeklySales,
      ∃ (y : Int) (w : Nat),
        b.key = jsIntToString y ++ "-W" ++ jsNatToString w ∧ b.id = some y) :=
  c3_bucket_ids [ordAlpha] "2024-01-03T00:00:00.000Z" (by decide)

/-- C3 counterexample: the weekly bucket of an order created on 2024-01-01 has key
`2024-W1` but id 2024 — the year, not the ISO week number 1 the claim requires. -/
theorem c3_cex_weekly_id_is_year :
    ((recalculateAnalytics
        [{ ordAlpha with createdAt := "2024-01-01T10:00:00.000Z" }]
        "2024-01-03T00:00:00.000Z").weeklySales.map SalesRecord.key = ["2024-W1"]) ∧
    ((recalculateAnalytics
        [{ ordAlpha with createdAt := "2024-01-01T10:00:00.000Z" }]
        "2024-01-03T00:00:00.000Z").weeklySales.map SalesRecord.id = [some 2024]) ∧
    (some (2024 : Int)) ≠ some 1 := by
  refine ⟨?_, ?_, ?_⟩ <;> decide
